import Mathlib

/-
  Verification of the patchmycode Process Supervision & Mode-Sequencing Core.

  Shallow embedding of the TypeScript sources:
  - src/src/patch.ts        (PatchClient: clone/commit/push phase, error propagation)
  - src/src/config.ts       (configuration defaults)
  - src/unnamed/part_000    (ModeSelector)
  - src/unnamed/part_001    (MultiPassProcessor, first version, with branchName threading)
  - src/unnamed/part_006    (PatchClient with interactive prompt automation and health checks)
  - src/unnamed/part_007    (PatchClient with unique branch generation and upgrade restart)

  JavaScript strings are modelled as Lean String; the handful of string
  operations used by the code (includes, trim, split on one character,
  toLowerCase, startsWith, endsWith) are given executable char-list
  implementations below so that every definition evaluates in the kernel.
  JavaScript numbers are modelled as Nat or Int; the one fractional value in
  the sources (half code-block pairs in the mode heuristic) is handled by
  scaling scores by two, which is exact.
-/

namespace PatchMyCode

set_option maxRecDepth 40000

/-! ## String helpers with JavaScript semantics -/

/-- Membership of pat as a contiguous infix of a char list (JS String.includes). -/
def listContainsSub (pat : List Char) : List Char → Bool
  | [] => pat.isEmpty
  | c :: rest => pat.isPrefixOf (c :: rest) || listContainsSub pat rest

/-- JS s.includes(sub). -/
def strContains (s sub : String) : Bool := listContainsSub sub.data s.data

/-- Whitespace as stripped by JS String.trim (restricted to the ASCII whitespace
that occurs in this code base; JS also strips further Unicode spaces). -/
def isWhitespaceChar (c : Char) : Bool :=
  c = ' ' || c = '\t' || c = '\n' || c = '\r'

/-- JS String.trim. -/
def jsTrim (s : String) : String :=
  String.mk (((s.data.dropWhile isWhitespaceChar).reverse.dropWhile isWhitespaceChar).reverse)

/-- Splitting a char list on a separator character; always returns at least one
(possibly empty) piece, like JS String.split with a one-character separator. -/
def splitOnChar (sep : Char) : List Char → List (List Char)
  | [] => [[]]
  | c :: rest =>
    let r := splitOnChar sep rest
    if c = sep then [] :: r
    else
      match r with
      | [] => [[c]]
      | piece :: pieces => (c :: piece) :: pieces

/-- JS s.split(sep) for a one-character separator. -/
def stringSplitChar (sep : Char) (s : String) : List String :=
  (splitOnChar sep s.data).map String.mk

/-- JS s.toLowerCase (ASCII; JS is Unicode-aware but the keyword tables are ASCII). -/
def lowerStr (s : String) : String := String.mk (s.data.map Char.toLower)

/-- JS s.startsWith(pre). -/
def strStartsWith (s pre : String) : Bool := pre.data.isPrefixOf s.data

/-- JS s.endsWith(suf). -/
def strEndsWith (s suf : String) : Bool := suf.data.isSuffixOf s.data

/-! ## PatchClient change harvesting and error propagation (src/src/patch.ts) -/

/-- Result record returned by PatchClient.fixIssue in src/src/patch.ts
(interface PatchResult, lines 12 to 16). -/
structure PatchResult where
  success : Bool
  message : String
  changes : List String
deriving Repr, DecidableEq

/-- Git side effects performed by the post-run phase of fixIssue. -/
inductive GitOp where
  | stageAll
  | commit (message : String)
  | push (branch : String)
deriving Repr, DecidableEq

/-- From src/src/patch.ts lines 557 to 565 (getStagedChanges): run
git diff --name-status HEAD; on success take stdout.trim().split(newline)
filtered to non-empty lines; if the diff command itself fails (for example no
prior commit exists) the catch returns the empty list. The outcome of the
external command is the Except argument. -/
def getStagedChanges (diffResult : Except String String) : List String :=
  match diffResult with
  | Except.ok stdout => (stringSplitChar '\n' (jsTrim stdout)).filter (fun l => !(l == ""))
  | Except.error _ => []

/-- From src/src/patch.ts lines 484 to 514: after the agent exits, if the staged
change list is empty return a failed result with no changes and perform no git
operation; otherwise commit with the issue-referencing message, push the branch,
and return the changed files (last tab-separated field of each diff line). -/
def afterAgentExit (stagedChanges : List String) (issueTitle branchName : String) :
    PatchResult × List GitOp :=
  if stagedChanges.length = 0 then
    ({ success := false,
       message := "No changes made. The AI couldn\u0027t find a solution or encountered an error.",
       changes := [] }, [])
  else
    let changedFiles := stagedChanges.map (fun line => (stringSplitChar '\t' line).getLastD "")
    ({ success := true,
       message := "Successfully applied changes to fix the issue.",
       changes := changedFiles },
     [GitOp.commit ("Fix: " ++ issueTitle ++ "\n\nAuto-generated fix by patchmycode."),
      GitOp.push branchName])

/-- From src/src/patch.ts lines 388 to 392: the authenticated clone URL built
when an auth token is supplied (url.protocol keeps its trailing colon, as in
the WHATWG URL class). -/
def gitUrlWithAuth (protocol host pathname authToken : String) : String :=
  protocol ++ "//" ++ authToken ++ "@" ++ host ++ pathname

/-- From src/src/patch.ts line 397: argument list of the clone command. -/
def cloneArgs (gitUrl issueDir : String) : List String :=
  ["clone", "--depth", "1", gitUrl, issueDir]

/-- From src/src/patch.ts lines 528 to 544 (executeCommand): on a non-zero exit
the rejection message embeds the full command line, including every argument. -/
def executeCommandFailureMessage (code : Int) (command : String) (args : List String) : String :=
  "Command failed with exit code " ++ toString code ++ ": " ++ command ++ " "
    ++ String.intercalate " " args

/-- From src/src/patch.ts lines 515 to 522: the catch block of fixIssue turns a
thrown error into the returned result with the raw error message attached; no
sanitization step exists in this file. -/
def fixIssueCatchResult (errMessage : String) : PatchResult :=
  { success := false, message := "Error: " ++ errMessage, changes := [] }

/-! ## Configuration (src/src/config.ts) -/

/-- The slice of PatchBotConfig consulted by the ModeSelector and the
MultiPassProcessor. Every field is overridable through environment variables at
load time (src/src/config.ts lines 185 to 247), so the record is a parameter of
the functions below; defaultConfig is the value with no overrides set. The
modeLabels map is an object literal, iterated by Object.entries in insertion
order, hence a list of pairs. -/
structure BotConfig where
  modeLabels : List (String × List String)
  defaultMode : String
  enableMultiPass : Bool
  defaultMultiPassSequence : List String
deriving Repr, DecidableEq

/-- Defaults from src/src/config.ts lines 232 to 243 with no environment
overrides. -/
def defaultConfig : BotConfig :=
  { modeLabels :=
      [("architect", ["patchmycode:architect", "major-change", "refactor"]),
       ("patcher", ["patchmycode:patcher", "bugfix", "minor-fix"]),
       ("hybrid:security", ["security", "vulnerability"]),
       ("hybrid:performance", ["performance", "optimization"]),
       ("hybrid:typescript", ["typescript-migration", "type-safety"])],
    defaultMode := "patcher",
    enableMultiPass := true,
    defaultMultiPassSequence := ["architect", "patcher"] }

/-! ## ModeSelector (src/unnamed/part_000) -/

/-- Result record of the ModeSelector (part_000 interface ModeResult,
lines 14 to 19). -/
structure ModeResult where
  primaryMode : String
  secondaryMode : Option String
  needsMultiPass : Bool
  systemPrompt : Option String
deriving Repr, DecidableEq

/-- From part_000 getSystemPromptForMode lines 259 to 285, in the
configuration-free state (no repository config file loaded). -/
def getSystemPromptForMode (mode : String) : Option String :=
  if mode == "architect" then
    some ("You are an expert software architect. Focus on making structural improvements, "
      ++ "refactoring, and ensuring the codebase follows best practices and design patterns. "
      ++ "Consider the big picture and long-term maintainability.")
  else if mode == "patcher" then
    some ("You are an expert programmer focused on fixing bugs and implementing specific "
      ++ "features. Pay attention to detail and make targeted changes to solve the immediate "
      ++ "problem without unnecessary refactoring.")
  else if mode == "hybrid:security" then
    some ("You are a security expert. Identify and fix security vulnerabilities, ensure "
      ++ "proper input validation, prevent injection attacks, and follow security best practices.")
  else if mode == "hybrid:performance" then
    some ("You are a performance optimization expert. Identify bottlenecks, improve algorithm "
      ++ "efficiency, reduce unnecessary operations, and optimize resource usage.")
  else if mode == "hybrid:typescript" then
    some ("You are a TypeScript expert. Add proper type annotations, convert JavaScript to "
      ++ "TypeScript, improve type safety, and leverage TypeScript features effectively.")
  else none

/-- From part_000 line 54: a catalog entry matches when some of its labels is
among the issue labels. -/
def labelsMatchMode (modeLabels labels : List String) : Bool :=
  modeLabels.any (fun l => labels.contains l)

/-- From part_000 lines 53 to 55: iterate the catalog in insertion order and
take the first mode whose label set intersects the issue labels. -/
def findMatchingMode : List (String × List String) → List String → Option String
  | [], _ => none
  | (mode, mls) :: rest, labels =>
    if labelsMatchMode mls labels then some mode else findMatchingMode rest labels

/-- From part_000 lines 66 to 69 and 89 to 92: the sequencing marker labels. -/
def hasMultipassMarker (labels : List String) : Bool :=
  labels.any (fun l => l == "multipass" || l == "patchmycode:multipass")

/-- From part_000 selectModeFromLabels lines 47 to 104. Note that in the
architect-plus-marker branch the secondary mode is the literal string patcher
(line 74), while the no-catalog-match fallback branch uses the configured
defaultMultiPassSequence (lines 94 to 101). -/
def selectModeFromLabels (cfg : BotConfig) (labels : List String) : Option ModeResult :=
  if labels.isEmpty then none
  else
    match findMatchingMode cfg.modeLabels labels with
    | some mode =>
      if strStartsWith mode "hybrid:" then
        some { primaryMode := mode, secondaryMode := none, needsMultiPass := false,
               systemPrompt := getSystemPromptForMode mode }
      else if hasMultipassMarker labels && mode == "architect" then
        some { primaryMode := "architect", secondaryMode := some "patcher",
               needsMultiPass := true,
               systemPrompt := getSystemPromptForMode "architect" }
      else
        some { primaryMode := mode, secondaryMode := none, needsMultiPass := false,
               systemPrompt := getSystemPromptForMode mode }
    | none =>
      if hasMultipassMarker labels then
        some { primaryMode := cfg.defaultMultiPassSequence.getD 0 "",
               secondaryMode := cfg.defaultMultiPassSequence.get? 1,
               needsMultiPass := true,
               systemPrompt := getSystemPromptForMode (cfg.defaultMultiPassSequence.getD 0 "") }
      else none

/-- From part_000 lines 177 to 181. -/
def architectureKeywords : List String :=
  ["refactor", "redesign", "architecture", "restructure",
   "design pattern", "rewrite", "overhaul", "major update",
   "significant change", "fundamental", "framework", "infrastructure"]

/-- From part_000 lines 183 to 187. -/
def patcherKeywords : List String :=
  ["fix bug", "bugfix", "patch", "issue", "error",
   "crash", "typo", "incorrect behavior", "minor issue",
   "quick fix", "small change", "small update"]

/-- Number of keywords of the table that occur (case-insensitively) in the
text: part_000 lines 194 to 217 count one hit per keyword per text via
String.includes. -/
def keywordHits (keywords : List String) (text : String) : Nat :=
  (keywords.filter (fun k => strContains (lowerStr text) (lowerStr k))).length

/-- The backtick character, used by the fenced code-block counter. -/
def backtickChar : Char := Char.ofNat 96

/-- Number of non-overlapping occurrences of three consecutive backticks, as
counted by the global regex match in part_000 line 220. -/
def countTripleBackticks : List Char → Nat
  | b1 :: b2 :: b3 :: rest =>
    if b1 = backtickChar && b2 = backtickChar && b3 = backtickChar then
      1 + countTripleBackticks rest
    else
      countTripleBackticks (b2 :: b3 :: rest)
  | _ => 0

/-- Twice the architect score of part_000 lines 189 to 226: architectCount is
the keyword hit count over title plus body, then doubled (line 226); doubling
again keeps everything in Nat alongside the half-unit patcher score. -/
def scaledArchitectCount (title body : String) : Nat :=
  4 * (keywordHits architectureKeywords title + keywordHits architectureKeywords body)

/-- Twice the patcher score of part_000 lines 189 to 223: patcherCount is the
keyword hit count over title plus body plus the number of code-block fence
pairs, where the JS code adds matchCount / 2 as an exact (possibly fractional)
float; scaling by two makes it the integer fence count. -/
def scaledPatcherCount (title body : String) : Nat :=
  2 * (keywordHits patcherKeywords title + keywordHits patcherKeywords body)
    + countTripleBackticks body.data

/-- From part_000 lines 228 to 253: the content heuristic reached when label
selection fails. The comparisons architectCount > patcherCount and
architectCount > 3 are stated on the doubled scores, so the threshold 3
becomes 6. -/
def analyzeHeuristic (title body : String) : ModeResult :=
  if scaledArchitectCount title body > scaledPatcherCount title body then
    if scaledArchitectCount title body > 6 then
      { primaryMode := "architect", secondaryMode := some "patcher", needsMultiPass := true,
        systemPrompt := getSystemPromptForMode "architect" }
    else
      { primaryMode := "architect", secondaryMode := none, needsMultiPass := false,
        systemPrompt := getSystemPromptForMode "architect" }
  else
    { primaryMode := "patcher", secondaryMode := none, needsMultiPass := false,
      systemPrompt := getSystemPromptForMode "patcher" }

/-- From part_000 analyzeIssueForMode lines 165 to 254: label selection first,
content heuristic otherwise. -/
def analyzeIssueForMode (cfg : BotConfig) (title body : String) (labels : List String) :
    ModeResult :=
  match selectModeFromLabels cfg labels with
  | some r => r
  | none => analyzeHeuristic title body

/-- Modelled from the claim wording for C9, to be compared with the source
translation analyzeHeuristic: the architectural score is twice the keyword hit
count, the localized score is the keyword hit count plus the number of whole
fenced code-block pairs (an integer), a two-stage selection is returned when
the architectural score both exceeds the localized score and exceeds 3, a
single architect pass when it exceeds the localized score but not 3, and the
localized-fix mode otherwise. Both scores are doubled to stay in Nat. -/
def claimHeuristic (title body : String) : ModeResult :=
  let archScore2 := scaledArchitectCount title body
  let locScore2 :=
    2 * (keywordHits patcherKeywords title + keywordHits patcherKeywords body
          + countTripleBackticks body.data / 2)
  if archScore2 > locScore2 ∧ archScore2 > 6 then
    { primaryMode := "architect", secondaryMode := some "patcher", needsMultiPass := true,
      systemPrompt := getSystemPromptForMode "architect" }
  else if archScore2 > locScore2 then
    { primaryMode := "architect", secondaryMode := none, needsMultiPass := false,
      systemPrompt := getSystemPromptForMode "architect" }
  else
    { primaryMode := "patcher", secondaryMode := none, needsMultiPass := false,
      systemPrompt := getSystemPromptForMode "patcher" }

/-- Configuration used by the C7 counterexample: identical to the defaults
except that PATCH_MULTIPASS_SEQUENCE is set to architect,hybrid:security. -/
def c7Config : BotConfig :=
  { defaultConfig with defaultMultiPassSequence := ["architect", "hybrid:security"] }

/-! ## PatchClient branch generation (src/unnamed/part_007) -/

/-- Leading decimal digits of a char list, with the remainder. -/
def digitsPrefix : List Char → List Char × List Char
  | [] => ([], [])
  | c :: rest =>
    if c.isDigit then
      let (ds, r) := digitsPrefix rest
      (c :: ds, r)
    else ([], c :: rest)

/-- First match of the regex issue-(\d+): scan for the literal issue- followed
by at least one digit and return the maximal digit run (part_007 line 470,
first alternative, applied to the requested branch name). -/
def findIssueDash : List Char → Option (List Char)
  | [] => none
  | c :: rest =>
    if (['i', 's', 's', 'u', 'e', '-']).isPrefixOf (c :: rest) then
      let ds := (digitsPrefix ((c :: rest).drop 6)).1
      if ds.isEmpty then findIssueDash rest else some ds
    else findIssueDash rest

/-- One attempt of the case-insensitive regex issue[- ]?#?(\d+) at the head of
the list: the literal issue, an optional dash or space, an optional hash sign,
then at least one digit. The optional parts are greedy; backtracking cannot
change the outcome here because a consumed dash or hash is neither a hash nor
a digit. -/
def tryIssueLooseAt (l : List Char) : Option (List Char) :=
  if (['i', 's', 's', 'u', 'e']).isPrefixOf (l.map Char.toLower) then
    let after := l.drop 5
    let after1 :=
      match after with
      | c :: r => if c = '-' || c = ' ' then r else after
      | [] => after
    let after2 :=
      match after1 with
      | c :: r => if c = '#' then r else after1
      | [] => after1
    let ds := (digitsPrefix after2).1
    if ds.isEmpty then none else some ds
  else none

/-- First match of issue[- ]?#?(\d+) anywhere in the list (part_007 line 470,
second alternative, applied to the issue title). -/
def findIssueLoose : List Char → Option (List Char)
  | [] => none
  | c :: rest =>
    match tryIssueLooseAt (c :: rest) with
    | some ds => some ds
    | none => findIssueLoose rest

/-- From part_007 lines 469 to 473: extract the issue number from the requested
branch name, falling back to the issue title. -/
def extractIssueNumber (branchName issueTitle : String) : Option String :=
  match findIssueDash branchName.data with
  | some ds => some (String.mk ds)
  | none =>
    match findIssueLoose issueTitle.data with
    | some ds => some (String.mk ds)
    | none => none

/-- From part_007 lines 476 to 480: the branch actually created, committed and
pushed by fixIssue. uniqueHash stands for the six-character Math.random hash
and timestampSuffix for the Date.now fallback digits, both opaque inputs of
the run. -/
def uniqueBranchName (mode uniqueHash : String) (issueNumber : Option String)
    (timestampSuffix : String) : String :=
  match issueNumber with
  | some n => mode ++ "-" ++ uniqueHash ++ "-" ++ n
  | none => mode ++ "-" ++ uniqueHash ++ "-" ++ timestampSuffix

/-! ## MultiPassProcessor (src/unnamed/part_001, first version) -/

/-- Result record of fixIssue in part_007 (PatchResult with the produced branch
name, lines reported by the interface at the top of part_007). -/
structure FixResult where
  success : Bool
  message : String
  changes : List String
  branchName : Option String
deriving Repr, DecidableEq

/-- Result record of the MultiPassProcessor (part_001 interface ProcessResult,
lines 15 to 21). -/
structure ProcessResult where
  success : Bool
  message : String
  changes : List String
  modesUsed : List String
  branchName : Option String
deriving Repr, DecidableEq

/-- One invocation of PatchClient.fixIssue as performed by the
MultiPassProcessor: the mode of the PatchClient and the four variable
arguments (part_001 lines 186 to 194 and 237 to 245). -/
structure PassCall where
  mode : String
  issueTitle : String
  issueBody : String
  branchName : String
  baseBranch : Option String
deriving Repr, DecidableEq

/-- JS spread of a Set literal over two arrays (part_001 line 248): concatenate
and keep the first occurrence of each element, preserving insertion order. -/
def jsSetDedupAux (seen : List String) : List String → List String
  | [] => []
  | x :: xs =>
    if seen.contains x then jsSetDedupAux seen xs
    else x :: jsSetDedupAux (x :: seen) xs

/-- Duplicate-free union in first-occurrence order, as produced by
Array.from(new Set(a concat b)). -/
def jsSetDedup (l : List String) : List String := jsSetDedupAux [] l

/-- From part_001 lines 230 to 234: the context note appended to the issue body
for the secondary pass. -/
def contextMessage (primaryMode secondaryMode : String) : String :=
  "This is a second pass after an initial " ++ primaryMode ++ " pass. "
    ++ "The first pass made architectural changes and refactoring. "
    ++ "This " ++ secondaryMode ++ " pass should focus on fine-tuning the implementation details "
    ++ "and ensuring all requirements are met."

/-- The primary fixIssue invocation of processMultiPass (part_001
lines 186 to 194): requested branch primaryMode-baseBranchName, no base
branch. -/
def primaryPassCall (primaryMode issueTitle issueBody baseBranchName : String) : PassCall :=
  { mode := primaryMode, issueTitle := issueTitle, issueBody := issueBody,
    branchName := primaryMode ++ "-" ++ baseBranchName, baseBranch := none }

/-- The secondary fixIssue invocation of processMultiPass (part_001
lines 215 and 237 to 245): requested branch secondaryMode-on-primaryMode-base,
augmented issue body, and base branch equal to the requested primary branch
name (not the branch the primary pass reported as produced). -/
def secondaryPassCall (primaryMode secondaryMode issueTitle issueBody baseBranchName : String) :
    PassCall :=
  { mode := secondaryMode, issueTitle := issueTitle,
    issueBody := issueBody ++ "\n\n---\n\n" ++ contextMessage primaryMode secondaryMode,
    branchName := secondaryMode ++ "-on-" ++ primaryMode ++ "-" ++ baseBranchName,
    baseBranch := some (primaryMode ++ "-" ++ baseBranchName) }

/-- From part_001 processMultiPass lines 153 to 279 (first version). runPass
abstracts PatchClient.fixIssue; the returned list is the ordered trace of
fixIssue invocations actually performed. The secondary mode defaults to the
second element of the configured default sequence when the selection carries
none (line 164). -/
def processMultiPass (cfg : BotConfig) (issueTitle issueBody baseBranchName : String)
    (primaryMode : String) (secondaryModeOpt : Option String)
    (runPass : PassCall → FixResult) : ProcessResult × List PassCall :=
  let secondaryMode := secondaryModeOpt.getD (cfg.defaultMultiPassSequence.getD 1 "")
  let primaryCall := primaryPassCall primaryMode issueTitle issueBody baseBranchName
  let primaryResult := runPass primaryCall
  if !primaryResult.success then
    ({ success := false,
       message := "Failed during " ++ primaryMode ++ " mode: " ++ primaryResult.message,
       changes := primaryResult.changes,
       modesUsed := [primaryMode],
       branchName := some (primaryMode ++ "-" ++ baseBranchName) },
     [primaryCall])
  else
    let secondaryCall :=
      secondaryPassCall primaryMode secondaryMode issueTitle issueBody baseBranchName
    let secondaryResult := runPass secondaryCall
    let allChanges := jsSetDedup (primaryResult.changes ++ secondaryResult.changes)
    let finalBranchName := secondaryMode ++ "-on-" ++ primaryMode ++ "-" ++ baseBranchName
    if !secondaryResult.success then
      ({ success := false,
         message := "First pass (" ++ primaryMode ++ ") successful, but second pass ("
           ++ secondaryMode ++ ") failed: " ++ secondaryResult.message,
         changes := allChanges,
         modesUsed := [primaryMode, secondaryMode],
         branchName := some finalBranchName },
       [primaryCall, secondaryCall])
    else
      ({ success := true,
         message := "Successfully applied changes with " ++ primaryMode ++ " followed by "
           ++ secondaryMode ++ " modes",
         changes := allChanges,
         modesUsed := [primaryMode, secondaryMode],
         branchName := some finalBranchName },
       [primaryCall, secondaryCall])

/-- Models the observable outcome of a successful part_007 fixIssue run for a
given invocation: the produced branch is the unique branch derived from the
mode, the random hash and the extracted issue number, never the requested
branch name (part_007 lines 469 to 482, 915 and 928 to 933). -/
def fixIssueProducedBranch (call : PassCall) (uniqueHash timestampSuffix : String) : String :=
  uniqueBranchName call.mode uniqueHash
    (extractIssueNumber call.branchName call.issueTitle) timestampSuffix

/-- Pass runner used by the C1 theorem: every pass succeeds, reports the
part_007 produced branch for its invocation, and touches overlapping file
sets so the union is visible. -/
def c1Runner : PassCall → FixResult := fun call =>
  { success := true,
    message := "Successfully applied changes to fix the issue.",
    changes := if call.baseBranch.isNone then ["src/a.ts", "src/b.ts"]
               else ["src/b.ts", "src/c.ts"],
    branchName := some (fixIssueProducedBranch call "abc123" "00000") }

/-- The two-pass run examined by the C1 theorem: architect then patcher on
base branch hint issue-5. -/
def c1Run : ProcessResult × List PassCall :=
  processMultiPass defaultConfig "Fix crash" "body" "issue-5" "architect" (some "patcher")
    c1Runner

/-! ## Interactive prompt automation (src/unnamed/part_006) -/

/-- One entry of the ordered prompt table: a matcher over the output chunk, a
response generator, and the prompt type tag reported to the progress callback
(part_006 handlePrompt parameters, lines 711 to 715). -/
structure PromptHandler where
  pattern : String → Bool
  response : String → String
  promptType : String

/-- From part_006 lines 709 to 751: each handlePrompt call first checks the
shared handled flag, then tests its matcher; on the first match it appends the
single canned response and sets the flag so every later handler is skipped for
this chunk. The traversal carries the flag and the list of responses sent. -/
def runHandlersFrom (chunk : String) (handled : Bool) (sent : List (String × String)) :
    List PromptHandler → Bool × List (String × String)
  | [] => (handled, sent)
  | h :: rest =>
    if handled then runHandlersFrom chunk handled sent rest
    else if h.pattern chunk then
      runHandlersFrom chunk true (sent ++ [(h.promptType, h.response chunk)]) rest
    else runHandlersFrom chunk handled sent rest

/-- The complete handlePrompt sequence for one chunk, starting unhandled with
no response sent. -/
def runHandlers (handlers : List PromptHandler) (chunk : String) :
    Bool × List (String × String) :=
  runHandlersFrom chunk false [] handlers

/-- Word characters of the JS regex escape backslash-b. -/
def isWordChar (c : Char) : Bool := c.isAlphanum || c = '_'

/-- Boundary test before a word character: start of string or a preceding
non-word character. -/
def boundaryBefore : Option Char → Bool
  | none => true
  | some p => !isWordChar p

/-- Scan for the word files at a word boundary, without crossing a line break
(the JS dot does not match newlines); prev is the character before the current
position. -/
def scanForFiles (prev : Char) : List Char → Bool
  | [] => false
  | c :: rest =>
    if c = '\n' || c = '\r' then false
    else
      (!isWordChar prev && (['f', 'i', 'l', 'e', 's']).isPrefixOf (c :: rest))
        || scanForFiles c rest

/-- Scan for the word edit at a word boundary followed, on the same line, by
the word files at a word boundary. -/
def scanForEdit : Option Char → List Char → Bool
  | _, [] => false
  | prev, c :: rest =>
    (boundaryBefore prev && (['e', 'd', 'i', 't']).isPrefixOf (c :: rest)
        && scanForFiles 't' ((c :: rest).drop 4))
      || scanForEdit (some c) rest

/-- The case-insensitive regex backslash-b edit dot-star backslash-b files of
part_006 line 636, applied to the lowercased chunk. -/
def regexEditThenFiles (chunk : String) : Bool :=
  scanForEdit none (chunk.data.map Char.toLower)

/-- From part_006 lines 633 to 638: the critical edit-prompt detection that
runs before the regular handler table. -/
def criticalEditPattern (chunk : String) : Bool :=
  (strContains chunk "Edit the files?" || strContains chunk "edit the files"
      || regexEditThenFiles chunk || strContains chunk "Edit files?")
    && (strContains chunk "(Y)" || strContains chunk "[Yes]" || strContains chunk "Y/N")

/-- From part_006 lines 632 to 707: the critical section answers the edit
prompt with a single yes and returns, skipping every other handler for the
chunk. (The override variant for a pre-typed n first clears the input field
and then sends the same single yes answer.) -/
def criticalEditHandler : PromptHandler :=
  { pattern := criticalEditPattern, response := fun _ => "y",
    promptType := "CRITICAL_EDIT_FILES" }

/-- Handler built from a String.includes matcher and a static response, the
common shape of the handlePrompt calls in part_006 lines 772 to 803. -/
def plainHandler (pat resp pt : String) : PromptHandler :=
  { pattern := fun chunk => strContains chunk pat, response := fun _ => resp, promptType := pt }

/-- Trailing whitespace stripped, for the JS regexes of the form X(\s*)$. -/
def rstripWs (l : List Char) : List Char := (l.reverse.dropWhile isWhitespaceChar).reverse

/-- Matcher for a JS regex of the form X(\s*)$ : the chunk ends with X followed
only by whitespace. -/
def endsWithThenWs (chunk pat : String) : Bool :=
  pat.data.isSuffixOf (rstripWs chunk.data)

/-- Handler built from a suffix regex X(\s*)$ (part_006 lines 843 to 849). -/
def suffixHandler (pat resp pt : String) : PromptHandler :=
  { pattern := fun chunk => endsWithThenWs chunk pat, response := fun _ => resp,
    promptType := pt }

/-- Tail scan of the bracket regex: the reversed remainder before ]: must reach
an opening bracket with at least one interior character and no interior
closing bracket. -/
def bracketContentScan : List Char → Bool → Bool
  | [], _ => false
  | c :: rest, seen =>
    if c = '[' then seen
    else if c = ']' then false
    else bracketContentScan rest true

/-- The regex backslash-bracket [^bracket]+ bracket-colon (\s*)$ of part_006
line 844: after trailing whitespace, the chunk ends with a colon preceded by a
bracketed non-empty segment. -/
def bracketColonSuffix (chunk : String) : Bool :=
  match (rstripWs chunk.data).reverse with
  | ':' :: ']' :: rest => bracketContentScan rest false
  | _ => false

/-- From part_006 lines 807 to 822: the generic edit question matcher with its
dynamic yes response. -/
def genericEditQuestionHandler : PromptHandler :=
  { pattern := fun chunk =>
      strEndsWith (jsTrim chunk) "?"
        && strContains (lowerStr chunk) "edit"
        && (strContains (lowerStr chunk) "file" || strContains (lowerStr chunk) "change"),
    response := fun _ => "y",
    promptType := "generic_edit_question" }

/-- From part_006 lines 825 to 840: the generic yes/no matcher defaulting to
no, except for edit, save, change and apply prompts. -/
def genericQuestionHandler : PromptHandler :=
  { pattern := fun chunk =>
      strContains chunk "(Y/N)" || (strContains chunk "[" && strContains chunk "]"),
    response := fun chunk =>
      if strContains (lowerStr chunk) "edit" || strContains (lowerStr chunk) "save"
          || strContains (lowerStr chunk) "change" || strContains (lowerStr chunk) "apply"
      then "y" else "n",
    promptType := "generic_question" }

/-- The regex backslash-paren [YN] paren (\s*)$ of part_006 line 845. -/
def ynChoiceHandler : PromptHandler :=
  { pattern := fun chunk => endsWithThenWs chunk "(Y)" || endsWithThenWs chunk "(N)",
    response := fun _ => "n", promptType := "yn_choice" }

/-- The complete ordered matcher table of the part_006 stdout handler: the
critical edit section (lines 632 to 707) followed by the handlePrompt sequence
in source order (lines 770 to 849). -/
def promptTable : List PromptHandler :=
  [criticalEditHandler,
   plainHandler "Edit the files?" "y" "edit_files",
   plainHandler "edit the files" "y" "edit_files_alt",
   plainHandler "Apply suggested changes?" "y" "apply_changes",
   plainHandler "apply changes" "y" "apply_changes_alt",
   plainHandler "Save changes?" "y" "save_changes",
   plainHandler "save changes" "y" "save_changes_alt",
   plainHandler "Clone repo:" "n" "clone_repo",
   plainHandler "Open this URL?" "n" "open_url",
   plainHandler "open link" "n" "open_link",
   plainHandler "Open browser?" "n" "open_browser",
   plainHandler "Add file to the chat?" "n" "add_file",
   plainHandler "Do you want to upgrade?" "n" "upgrade",
   plainHandler "Run pip install?" "n" "pip_install",
   plainHandler "Newer aider version" "n" "version_notice",
   plainHandler "Do you want to allow" "n" "permission",
   plainHandler "Would you like me to" "n" "permission_alt",
   plainHandler "Stage these changes?" "y" "stage_changes",
   plainHandler "Commit staged changes?" "y" "commit_changes",
   plainHandler "stage changes" "y" "stage_changes_alt",
   plainHandler "continue?" "y" "continue",
   plainHandler "proceed?" "y" "proceed",
   genericEditQuestionHandler,
   genericQuestionHandler,
   suffixHandler "[Yes]:" "y" "default_yes",
   { pattern := bracketColonSuffix, response := fun _ => "n",
     promptType := "prompt_with_brackets" },
   ynChoiceHandler,
   suffixHandler "(Y/n)" "y" "yes_default",
   suffixHandler "(y/N)" "n" "no_default",
   suffixHandler "(yes/no)" "n" "generic_choice",
   suffixHandler "[No]:" "n" "default_no"]

/-- The canned responses written to the agent for one stdout chunk: the
first-match-wins run over the full table (part_006 lines 620 to 850). -/
def stdoutPromptResponses (chunk : String) : List (String × String) :=
  (runHandlers promptTable chunk).2

/-! ## Health-check liveness timer (src/unnamed/part_006 lines 874 to 928) -/

/-- Mutable state read and written by the health-check interval callback. -/
structure HealthState where
  lastActivity : Nat
  consecutiveHealthChecks : Nat
deriving Repr, DecidableEq

/-- Externally visible actions of one health-check firing. -/
inductive HealthAction where
  | probe
  | sigterm
  | scheduleForceKill
deriving Repr, DecidableEq

/-- From part_006 lines 874 to 928: one firing of healthCheckInterval at time
now (milliseconds). When stdin is writable and inactivity exceeds 60 seconds,
a probe newline is written; the consecutiveHealthChecks increment runs in the
asynchronous then-callback of the write, so the synchronous threshold check of
the same firing still sees the pre-increment value while later firings see the
incremented one. When the counter has reached 5 the process is sent SIGTERM
and a 5-second grace timer is scheduled that SIGKILLs it if still alive. No
flag records that a SIGTERM was already sent. -/
def healthCheckTick (stdinWritable : Bool) (now : Nat) (s : HealthState) :
    HealthState × List HealthAction :=
  if stdinWritable then
    let inactiveSecs := (now - s.lastActivity) / 1000
    if inactiveSecs > 60 then
      let actions :=
        if s.consecutiveHealthChecks ≥ 5 then
          [HealthAction.probe, HealthAction.sigterm, HealthAction.scheduleForceKill]
        else [HealthAction.probe]
      ({ s with consecutiveHealthChecks := s.consecutiveHealthChecks + 1 }, actions)
    else (s, [])
  else (s, [])

/-- A run of successive health-check firings over a totally inactive, alive
subprocess (no stdout or stderr event ever resets the counter between the
firings). Returns the final state and the per-firing action lists. -/
def runHealthTicks (stdinWritable : Bool) (times : List Nat) (s : HealthState) :
    HealthState × List (List HealthAction) :=
  match times with
  | [] => (s, [])
  | t :: ts =>
    let step := healthCheckTick stdinWritable t s
    let rest := runHealthTicks stdinWritable ts step.1
    (rest.1, step.2 :: rest.2)

/-- Firing times of the C4 run: the interval fires every 60 seconds with the
last activity at time 0, so inactivity first exceeds 60 seconds at the
120-second firing; seven firings with the process stuck throughout. -/
def c4TickTimes : List Nat :=
  [120000, 180000, 240000, 300000, 360000, 420000, 480000]

/-- The C4 run itself: stdin stays writable, counter starts at zero. -/
def c4Run : HealthState × List (List HealthAction) :=
  runHealthTicks true c4TickTimes { lastActivity := 0, consecutiveHealthChecks := 0 }

/-! ## Upgrade restart (src/unnamed/part_007 lines 644 to 648 and 810 to 866) -/

/-- From part_007 lines 644 to 648: the upgrade flag is set when some stdout
chunk contains the upgrade notice. -/
def upgradeDetected (chunks : List String) : Bool :=
  chunks.any (fun c => strContains c "Re-run aider to use new version")

/-- One child-process spawn as observed at the close handler. -/
structure SpawnCall where
  cmd : String
  args : List String
  cwd : String
  env : List (String × String)
deriving Repr, DecidableEq

/-- From part_007 lines 810 to 866: the close handler. Without an upgrade it
resolves with the exit code (null coalesced to 0). With the upgrade flag set
it spawns aider once more with the identical argument list, working directory
and environment, wires the restarted process, and resolves with the restarted
process exit code; the restarted close handler has no upgrade branch, so no
further restart can occur. Returns the resolved exit code and the restart
spawns performed. -/
def closeHandlerResolve (exitDueToUpgrade : Bool) (code restartCode : Option Int)
    (args : List String) (cwd : String) (env : List (String × String)) :
    Int × List SpawnCall :=
  if exitDueToUpgrade then
    (restartCode.getD 0, [{ cmd := "aider", args := args, cwd := cwd, env := env }])
  else (code.getD 0, [])

/-- From part_007 lines 868 to 933: the post-exit phase, which depends only on
the harvested staged changes (the awaited exit code is logged and reported but
never consulted): empty diff reports failure with no git operation; otherwise
stage, commit with the issue reference and push the unique branch. -/
def postExitResult (stagedChanges : List String) (issueTitle : String)
    (issueNumber : Option String) (uniqueBranch : String) : FixResult × List GitOp :=
  if stagedChanges.length = 0 then
    ({ success := false,
       message := "No changes made. The AI couldn\u0027t find a solution or encountered an error.",
       changes := [], branchName := some uniqueBranch }, [])
  else
    let issueReference := match issueNumber with | some n => " #" ++ n | none => ""
    let commitMessage :=
      "Fix: " ++ issueTitle ++ issueReference ++ "\n\nAuto-generated fix by patchmycode."
    ({ success := true,
       message := "Successfully applied changes to fix the issue.",
       changes := stagedChanges.map (fun line => (stringSplitChar '\t' line).getLastD ""),
       branchName := some uniqueBranch },
     [GitOp.stageAll, GitOp.commit commitMessage, GitOp.push uniqueBranch])

/-- The close-await followed by the post-exit phase of one part_007 supervised
run: the exit is resolved through the close handler (restarting once on an
upgrade notice) and the run result is then computed from the harvested diff. -/
def superviseAgentRun (chunks : List String) (code restartCode : Option Int)
    (args : List String) (cwd : String) (env : List (String × String))
    (stagedChanges : List String) (issueTitle : String) (issueNumber : Option String)
    (uniqueBranch : String) :
    (Int × List SpawnCall) × (FixResult × List GitOp) :=
  (closeHandlerResolve (upgradeDetected chunks) code restartCode args cwd env,
   postExitResult stagedChanges issueTitle issueNumber uniqueBranch)

/-! ## Concrete witness inputs -/

/-- Pass runner used by the C6 witness: the primary pass fails the way a
part_007 clone failure does. -/
def c6Runner : PassCall → FixResult := fun _ =>
  { success := false,
    message := "Error: Command failed with exit code 128: git clone --depth 1 x y",
    changes := [], branchName := none }

/-- Output chunks used by the C8 witness: the agent announces a self-upgrade
mid-run. -/
def c8Chunks : List String :=
  ["Aider v0.36.0", "Installing new aider version...", "Re-run aider to use new version"]

/-! # Theorems -/

/-! ## Helper lemmas -/

/-- Once the handled flag is set, the remaining handlers change nothing. -/
theorem runHandlersFrom_handled (chunk : String) (sent : List (String × String)) :
    ∀ handlers : List PromptHandler, runHandlersFrom chunk true sent handlers = (true, sent) := by
  intro handlers
  induction handlers with
  | nil => rfl
  | cons h rest ih => simpa [runHandlersFrom] using ih

/-- The responses of a handlePrompt run are exactly the response of the first
matching handler, or nothing when no handler matches. -/
theorem runHandlers_responses (handlers : List PromptHandler) (chunk : String) :
    (runHandlers handlers chunk).2 =
      match handlers.find? (fun x => x.pattern chunk) with
      | some h => [(h.promptType, h.response chunk)]
      | none => [] := by
  unfold runHandlers
  induction handlers with
  | nil => rfl
  | cons h rest ih =>
    cases hp : h.pattern chunk with
    | true =>
      simp [runHandlersFrom, hp, runHandlersFrom_handled, List.find?_cons_of_pos, hp]
    | false =>
      simpa [runHandlersFrom, hp, List.find?_cons_of_neg] using ih

/-! ## Claim theorems -/

/-- Claim C1 (code bug): in a two-pass sequence whose primary pass succeeds,
the base branch handed to the secondary supervisor run should equal the branch
the primary pass actually committed and pushed. In the code the primary pass
pushes the unique branch architect-abc123-5 derived from the random hash,
while the sequencer passes the requested name architect-issue-5 as the
secondary base branch, so the two differ; the touched-file half of the claim
(duplicate-free union) does hold on the same run. -/
theorem two_pass_base_branch_diverges_from_produced_branch :
    c1Run.1.success = true ∧
    (c1Runner (primaryPassCall "architect" "Fix crash" "body" "issue-5")).branchName
      = some "architect-abc123-5" ∧
    (c1Run.2.map (fun c => c.baseBranch)).get? 1 = some (some "architect-issue-5") ∧
    some "architect-issue-5" ≠ some "architect-abc123-5" ∧
    c1Run.1.changes = ["src/a.ts", "src/b.ts", "src/c.ts"] := by
  decide

/-- Claim C2 (code bug): a supervisor run in src/src/patch.ts that clones with
an auth token and fails embeds the credential-bearing clone URL in the command
failure message, and the catch block attaches that message to the returned
result unsanitized, so the returned message contains the supplied credential
as a substring. -/
theorem clone_failure_message_contains_token :
    strContains
      (fixIssueCatchResult
        (executeCommandFailureMessage 128 "git"
          (cloneArgs
            (gitUrlWithAuth "https:" "github.com" "/acme/widgets"
              "ghs_AbCdEfGh0123456789SecretToken")
            "/tmp/patchmycode-x/issue-1"))).message
      "ghs_AbCdEfGh0123456789SecretToken" = true := by
  decide

/-- Claim C3: every output chunk that matches at least one pattern of the
prompt table receives exactly one canned response, the one of the first
matching handler in priority order; it is never answered zero times and never
twice. -/
theorem prompt_chunk_answered_exactly_once (chunk : String)
    (hmatch : ∃ h ∈ promptTable, h.pattern chunk = true) :
    ∃ h, promptTable.find? (fun x => x.pattern chunk) = some h ∧
      stdoutPromptResponses chunk = [(h.promptType, h.response chunk)] := by
  obtain ⟨h0, hmem, hp⟩ := hmatch
  cases hfind : promptTable.find? (fun x => x.pattern chunk) with
  | none =>
    exact absurd hp (by simpa using List.find?_eq_none.mp hfind h0 hmem)
  | some h =>
    refine ⟨h, rfl, ?_⟩
    have hresp := runHandlers_responses promptTable chunk
    rw [hfind] at hresp
    exact hresp

/-- Witness for C3: the realistic chunk matches several table entries (the
critical edit section, the plain edit handler, the bracket handlers) and is
answered exactly once, by the highest-priority one. -/
theorem prompt_chunk_answered_exactly_once_witness :
    ∃ h, promptTable.find? (fun x => x.pattern "Edit the files? (Y)es/(N)o [Yes]:") = some h ∧
      stdoutPromptResponses "Edit the files? (Y)es/(N)o [Yes]:" =
        [(h.promptType, h.response "Edit the files? (Y)es/(N)o [Yes]:")] :=
  prompt_chunk_answered_exactly_once "Edit the files? (Y)es/(N)o [Yes]:"
    ⟨criticalEditHandler, List.Mem.head _, by decide⟩

/-- Claim C4 (code bug): over a run in which the subprocess stays inactive and
alive, the health-check timer sends a graceful terminate not exactly once but
on every firing from the one that sees the counter at the limit onwards: the
sixth and seventh probing firings both emit SIGTERM (each together with a
scheduled grace-period force kill), because no already-terminating flag is
checked. -/
theorem stuck_process_receives_second_sigterm :
    c4Run.2.map (fun acts => acts.contains HealthAction.sigterm)
      = [false, false, false, false, false, true, true] ∧
    c4Run.2.map (fun acts => acts.contains HealthAction.scheduleForceKill)
      = [false, false, false, false, false, true, true] := by
  decide

/-- Claim C5: when the working-tree diff after the agent run is empty, the run
returns success equal to false with an empty change list and performs neither
a commit nor a push. -/
theorem empty_diff_no_commit_no_push (diffOutput issueTitle branchName : String)
    (hempty : jsTrim diffOutput = "") :
    (afterAgentExit (getStagedChanges (Except.ok diffOutput)) issueTitle branchName).1.success
        = false ∧
    (afterAgentExit (getStagedChanges (Except.ok diffOutput)) issueTitle branchName).1.changes
        = [] ∧
    (afterAgentExit (getStagedChanges (Except.ok diffOutput)) issueTitle branchName).2 = [] := by
  have h1 : getStagedChanges (Except.ok diffOutput) = [] := by
    show (stringSplitChar '\n' (jsTrim diffOutput)).filter (fun l => !(l == "")) = []
    rw [hempty]
    decide
  rw [h1]
  exact ⟨rfl, rfl, rfl⟩

/-- Witness for C5: a whitespace-only diff output. -/
theorem empty_diff_no_commit_no_push_witness :
    jsTrim "  \n " = "" ∧
    ((afterAgentExit (getStagedChanges (Except.ok "  \n ")) "Fix crash" "patcher-issue-3").1.success
        = false ∧
     (afterAgentExit (getStagedChanges (Except.ok "  \n ")) "Fix crash" "patcher-issue-3").1.changes
        = [] ∧
     (afterAgentExit (getStagedChanges (Except.ok "  \n ")) "Fix crash" "patcher-issue-3").2
        = []) :=
  ⟨by decide, empty_diff_no_commit_no_push "  \n " "Fix crash" "patcher-issue-3" (by decide)⟩

/-- Claim C6: when the primary pass of a multi-pass sequencer invocation
returns an unsuccessful result, the sequencer returns immediately with success
equal to false, the secondary supervisor is never invoked (the invocation
trace holds only the primary call), and modesUsed is exactly the primary
mode. -/
theorem primary_failure_skips_secondary (cfg : BotConfig)
    (issueTitle issueBody baseBranchName primaryMode : String)
    (secondaryModeOpt : Option String) (runPass : PassCall → FixResult)
    (hfail : (runPass (primaryPassCall primaryMode issueTitle issueBody baseBranchName)).success
        = false) :
    (processMultiPass cfg issueTitle issueBody baseBranchName primaryMode secondaryModeOpt
        runPass).1.success = false ∧
    (processMultiPass cfg issueTitle issueBody baseBranchName primaryMode secondaryModeOpt
        runPass).1.modesUsed = [primaryMode] ∧
    (processMultiPass cfg issueTitle issueBody baseBranchName primaryMode secondaryModeOpt
        runPass).2 = [primaryPassCall primaryMode issueTitle issueBody baseBranchName] := by
  unfold processMultiPass
  simp [hfail]

/-- Witness for C6: a failing primary architect pass. -/
theorem primary_failure_skips_secondary_witness :
    (processMultiPass defaultConfig "Fix crash" "body" "issue-9" "architect" (some "patcher")
        c6Runner).1.success = false ∧
    (processMultiPass defaultConfig "Fix crash" "body" "issue-9" "architect" (some "patcher")
        c6Runner).1.modesUsed = ["architect"] ∧
    (processMultiPass defaultConfig "Fix crash" "body" "issue-9" "architect" (some "patcher")
        c6Runner).2 = [primaryPassCall "architect" "Fix crash" "body" "issue-9"] :=
  primary_failure_skips_secondary defaultConfig "Fix crash" "body" "issue-9" "architect"
    (some "patcher") c6Runner rfl

/-- Counterexample for C7: with the default multi-pass sequence configured to
architect then hybrid:security, an architect label match with a sequencing
marker still returns the hard-coded secondary patcher, which differs from the
second element of the configured default sequence. -/
theorem architect_marker_secondary_ignores_configured_sequence :
    (selectModeFromLabels c7Config ["refactor", "multipass"]).map (fun r => r.secondaryMode)
        = some (some "patcher") ∧
    c7Config.defaultMultiPassSequence.get? 1 = some "hybrid:security" ∧
    ¬ ((selectModeFromLabels c7Config ["refactor", "multipass"]).map (fun r => r.secondaryMode)
        = some (c7Config.defaultMultiPassSequence.get? 1)) := by
  decide

/-- Claim C7 (amended): a label set whose first catalog match is the architect
mode and that carries a sequencing marker label yields the architect mode as
primary with needsMultiPass true and the fixed secondary mode patcher; the
fixed choice coincides with the configured default second stage only under
the default configuration. -/
theorem architect_marker_selects_fixed_patcher_secondary (cfg : BotConfig)
    (labels : List String)
    (hmatch : findMatchingMode cfg.modeLabels labels = some "architect")
    (hmarker : hasMultipassMarker labels = true) :
    selectModeFromLabels cfg labels =
      some { primaryMode := "architect", secondaryMode := some "patcher",
             needsMultiPass := true,
             systemPrompt := getSystemPromptForMode "architect" } := by
  have hne : labels.isEmpty = false := by
    cases labels with
    | nil => simp [hasMultipassMarker] at hmarker
    | cons a l => rfl
  have hhyb : strStartsWith "architect" "hybrid:" = false := by decide
  simp [selectModeFromLabels, hne, hmatch, hmarker, hhyb]

/-- Witness for C7 (amended): default configuration, refactor label plus the
multipass marker. -/
theorem architect_marker_selects_fixed_patcher_secondary_witness :
    selectModeFromLabels defaultConfig ["refactor", "multipass"] =
      some { primaryMode := "architect", secondaryMode := some "patcher",
             needsMultiPass := true,
             systemPrompt := getSystemPromptForMode "architect" } :=
  architect_marker_selects_fixed_patcher_secondary defaultConfig ["refactor", "multipass"]
    (by decide) (by decide)

/-- Claim C8: when the output stream reports a mid-run self-upgrade, the close
handler restarts the subprocess exactly once with the identical argument list,
working directory and environment, resolves the same run with the restarted
process exit code, and the run outcome is the ordinary harvest of the staged
changes rather than a failure for the upgrade exit. -/
theorem upgrade_restarts_once_with_identical_args (chunks : List String)
    (code restartCode : Option Int) (args : List String) (cwd : String)
    (env : List (String × String)) (staged : List String) (issueTitle : String)
    (issueNumber : Option String) (uniqueBranch : String)
    (hup : upgradeDetected chunks = true) :
    (superviseAgentRun chunks code restartCode args cwd env staged issueTitle issueNumber
        uniqueBranch).1.2 = [{ cmd := "aider", args := args, cwd := cwd, env := env }] ∧
    (superviseAgentRun chunks code restartCode args cwd env staged issueTitle issueNumber
        uniqueBranch).1.1 = restartCode.getD 0 ∧
    (superviseAgentRun chunks code restartCode args cwd env staged issueTitle issueNumber
        uniqueBranch).2 = postExitResult staged issueTitle issueNumber uniqueBranch := by
  simp [superviseAgentRun, closeHandlerResolve, hup]

/-- Witness for C8: an upgrade notice mid-run, one staged change. -/
theorem upgrade_restarts_once_with_identical_args_witness :
    (superviseAgentRun c8Chunks (some 0) (some 0) ["--model", "gpt-4o"] "/tmp/w"
        [("AIDER_MODE", "patcher")] ["M\tsrc/app.ts"] "Fix crash" (some "7")
        "patcher-ab12cd-7").1.2
      = [{ cmd := "aider", args := ["--model", "gpt-4o"], cwd := "/tmp/w",
           env := [("AIDER_MODE", "patcher")] }] ∧
    (superviseAgentRun c8Chunks (some 0) (some 0) ["--model", "gpt-4o"] "/tmp/w"
        [("AIDER_MODE", "patcher")] ["M\tsrc/app.ts"] "Fix crash" (some "7")
        "patcher-ab12cd-7").1.1 = (some (0 : Int)).getD 0 ∧
    (superviseAgentRun c8Chunks (some 0) (some 0) ["--model", "gpt-4o"] "/tmp/w"
        [("AIDER_MODE", "patcher")] ["M\tsrc/app.ts"] "Fix crash" (some "7")
        "patcher-ab12cd-7").2
      = postExitResult ["M\tsrc/app.ts"] "Fix crash" (some "7") "patcher-ab12cd-7" :=
  upgrade_restarts_once_with_identical_args c8Chunks (some 0) (some 0) ["--model", "gpt-4o"]
    "/tmp/w" [("AIDER_MODE", "patcher")] ["M\tsrc/app.ts"] "Fix crash" (some "7")
    "patcher-ab12cd-7" (by decide)

/-- Claim C9: on inputs with no label match, the content heuristic returns a
two-stage architect-then-patcher selection when the doubled architectural
keyword score both exceeds the localized score (keyword hits plus whole fenced
code-block pairs) and exceeds 3, a single architect pass when it exceeds the
localized score but not 3, and the localized-fix patcher mode otherwise, with
every tie resolving to the patcher mode. The fractional half-pair the code
adds for an odd number of fences can never flip any comparison, so the code
agrees with the whole-pair reading of the claim on every input. -/
theorem heuristic_matches_claim_description (cfg : BotConfig) (title body : String)
    (labels : List String) (hnolabel : selectModeFromLabels cfg labels = none) :
    analyzeIssueForMode cfg title body labels = claimHeuristic title body := by
  unfold analyzeIssueForMode
  rw [hnolabel]
  simp only [analyzeHeuristic, claimHeuristic, scaledArchitectCount, scaledPatcherCount]
  split_ifs <;> first | rfl | (exfalso; omega)

/-- Witness for C9: no labels, architectural wording in the title. -/
theorem heuristic_matches_claim_description_witness :
    selectModeFromLabels defaultConfig [] = none ∧
    analyzeIssueForMode defaultConfig "Refactor the overall architecture" "" []
      = claimHeuristic "Refactor the overall architecture" "" :=
  ⟨rfl,
   heuristic_matches_claim_description defaultConfig "Refactor the overall architecture" "" []
     rfl⟩

/-- Claim C10: when the post-run diff command itself fails, the
change-harvesting step returns the empty change list, so the run is reported
exactly like a run whose diff output is empty: same failed result, no commit
and no push; the two cases are indistinguishable at the public interface. -/
theorem diff_failure_indistinguishable_from_empty_diff (err issueTitle branchName : String) :
    getStagedChanges (Except.error err) = [] ∧
    afterAgentExit (getStagedChanges (Except.error err)) issueTitle branchName
      = afterAgentExit (getStagedChanges (Except.ok "")) issueTitle branchName ∧
    (afterAgentExit (getStagedChanges (Except.error err)) issueTitle branchName).1.success
      = false ∧
    (afterAgentExit (getStagedChanges (Except.error err)) issueTitle branchName).2 = [] :=
  ⟨rfl, rfl, rfl, rfl⟩

end PatchMyCode
